import Mathlib

/-!
Verification of the qodex command-line entry point
(`src/qodex/__main__.py`) against its specification.

The program is a thin argparse-based CLI: `parse_args()` builds an
`argparse.ArgumentParser` with a single variadic positional argument
`files` of type `argparse.FileType("r+")`, and `main()` calls it,
prints `Hello Qodex!` and returns `os.EX_OK`.

The embedding models:
  * the filesystem as a predicate saying which paths can be opened in
    read-and-update mode (`FS`),
  * an opened text stream handle (`TextHandle`, the embedding of a
    `typing.TextIO` value produced by `argparse.FileType("r+")`),
  * the behavior of `argparse` for this particular parser, including
    the automatically added `-h`/`--help` option, left-to-right
    consumption of the positional chunk with eager `FileType`
    conversion, the `--` separator, collection of unrecognized
    arguments, and the fixed error exit code 2 (`parseTokens`),
  * `parse_args` and `main` themselves,
  * the module's top level, to reason about what importing it does.
-/

namespace Qodex

/-- An open text stream handle, as produced by `argparse.FileType("r+")`
applied to a path.  Embeds the `typing.TextIO` values stored in
`files`; the handle remembers the path it was opened from. -/
structure TextHandle where
  path : String
deriving DecidableEq, Repr

/-- The ambient filesystem, abstracted to the one query the program
makes: whether a given path can be opened in mode `r+` (it must exist
and be both readable and writable, and must not be a directory). -/
structure FS where
  openable : String → Bool

/-- `argparse.FileType("r+")` applied to one token: open the path in
read-and-update mode, failing (with an `ArgumentTypeError`, which
argparse turns into a parse error) when the filesystem refuses. -/
def openFile (fs : FS) (p : String) : Option TextHandle :=
  if fs.openable p then some ⟨p⟩ else none

/-- The runtime result of `parser.parse_args()`: an `argparse.Namespace`
whose only attribute is `files`, the list of opened handles. -/
structure Namespace where
  files : List TextHandle
deriving DecidableEq, Repr

/-- `typing.cast(T, x)`: at runtime it returns `x` unchanged; the first
argument only exists for the benefit of static type-checkers. -/
def typing_cast (_view : Type) {α : Type} (x : α) : α := x

/-- The `QodexNamespace` protocol of the source is purely a static view
over the runtime `argparse.Namespace`; as a runtime type it is the
namespace itself. -/
def QodexNamespaceView : Type := Namespace

/-- Outcome of a `parser.parse_args()` call: either the parsed
namespace is returned to the caller, or argparse terminates the whole
process (`SystemExit`) with an exit code, text printed to stdout and
text printed to stderr. -/
inductive ParseOutcome where
  | ok (ns : Namespace)
  | exit (code : Nat) (toOut : String) (toErr : String)
deriving DecidableEq, Repr

/-- The program name argparse computes when the module runs via
`python -m qodex` (basename of `sys.argv[0]`). -/
def progName : String := "__main__.py"

/-- The usage line argparse generates for this parser. -/
def usageText : String := "usage: __main__.py [-h] [files ...]\n"

/-- The help text printed to stdout by the automatic `-h`/`--help`
action. -/
def helpText : String :=
  usageText ++
  "\npositional arguments:\n  files\n\noptions:\n  -h, --help  show this help message and exit\n"

/-- Diagnostic written to stderr when `FileType("r+")` cannot open a
path (argparse prints the usage line followed by an error line and
exits with status 2). -/
def fileErrMsg (p : String) : String :=
  usageText ++ progName ++ ": error: argument files: cannot open " ++ p ++ "\n"

/-- Diagnostic written to stderr for tokens the parser could not
consume (unknown options, or positionals left over after the variadic
`files` argument was already matched). -/
def unrecognizedMsg (ts : List String) : String :=
  usageText ++ progName ++ ": error: unrecognized arguments: " ++
    String.intercalate " " ts ++ "\n"

/-- argparse's negative-number matcher: a token of the shape `-DD...D`
or `-D...D.DD...D`.  Since this parser defines no option that looks
like a negative number, such tokens are classified as positionals. -/
def isNegNumTok (t : String) : Bool :=
  match t.toList with
  | '-' :: rest =>
      (!rest.isEmpty && rest.all Char.isDigit) ||
      (match rest.span Char.isDigit with
       | (_, '.' :: frac) => !frac.isEmpty && frac.all Char.isDigit
       | _ => false)
  | _ => false

/-- Whether a string begins with the option prefix character `-`. -/
def dashLed (t : String) : Bool :=
  match t.toList with
  | '-' :: _ => true
  | _ => false

/-- Whether argparse classifies a token as an option string: it starts
with the prefix character `-`, is not the bare `-` (a positional), is
not the `--` separator, and does not look like a negative number. -/
def isOptionTok (t : String) : Bool :=
  dashLed t && t != "-" && t != "--" && !isNegNumTok t

/-- Whether a token selects the automatic help action: the option
strings `-h` and `--help`, or an unambiguous prefix abbreviation of
`--help` (this parser has no other long option). -/
def isHelpTok (t : String) : Bool :=
  t == "-h" || t == "--help" || t == "--h" || t == "--he" || t == "--hel"

/-- Left-to-right argument consumption of `parser.parse_args()` for
this parser, mirroring argparse:

  * `afterDD` records that the `--` separator was seen, after which
    every token is a positional;
  * `chunkDone` records that the variadic `files` positional has
    already consumed its (single) chunk: argparse matches `nargs=*`
    against the chunk of positionals preceding the first option
    string, so positionals that appear after an option are never
    consumed (and never opened) and end up unrecognized;
  * positional tokens of the active chunk are converted eagerly by
    `FileType("r+")`, so the first unopenable path aborts the process
    with exit code 2 before later tokens are looked at;
  * the help action fires the moment its option string is consumed,
    printing the help text to stdout and exiting with status 0;
  * unknown option strings are collected and reported at the end as
    `unrecognized arguments`, with exit code 2. -/
def parseTokens (fs : FS) :
    List String → Bool → Bool → List TextHandle → List String → ParseOutcome
  | [], _, _, files, extras =>
      if extras.isEmpty then .ok ⟨files⟩
      else .exit 2 "" (unrecognizedMsg extras)
  | t :: rest, afterDD, chunkDone, files, extras =>
      if !afterDD && t == "--" then
        (if chunkDone then parseTokens fs rest true chunkDone files (extras ++ [t])
         else parseTokens fs rest true chunkDone files extras)
      else if !afterDD && isOptionTok t then
        (if isHelpTok t then .exit 0 helpText ""
         else parseTokens fs rest afterDD true files (extras ++ [t]))
      else
        if chunkDone then parseTokens fs rest afterDD chunkDone files (extras ++ [t])
        else
          match openFile fs t with
          | some h => parseTokens fs rest afterDD chunkDone (files ++ [h]) extras
          | none => .exit 2 "" (fileErrMsg t)

/-- `parser.parse_args()` on the parser built inside `parse_args`:
consume the whole command line starting from an empty state. -/
def parser_parse_args (fs : FS) (argv : List String) : ParseOutcome :=
  parseTokens fs argv false false [] []

/-- The source's `parse_args()`: call the underlying parser and wrap
the result in `typing.cast(QodexNamespace, ...)`, which is the
identity at runtime.  A process-terminating parse never returns. -/
def parse_args (fs : FS) (argv : List String) : ParseOutcome :=
  match parser_parse_args fs argv with
  | .ok ns => .ok (typing_cast QodexNamespaceView ns)
  | .exit c o e => .exit c o e

/-- `os.EX_OK`, the success exit status. -/
def EX_OK : Nat := 0

/-- The constant greeting printed by `main` (Python's `print` appends
a newline). -/
def greeting : String := "Hello Qodex!"

/-- Observable result of one process invocation: exit status and the
full contents of stdout and stderr. -/
structure ProcResult where
  exitCode : Nat
  stdout : String
  stderr : String
deriving DecidableEq, Repr

/-- The source's `main()`: parse the arguments (if the parser
terminates the process, that termination is the run's result), print
the greeting, and return `os.EX_OK`.  The parsed `args` value is bound
but never used. -/
def main (fs : FS) (argv : List String) : ProcResult :=
  match parse_args fs argv with
  | .exit c o e => ⟨c, o, e⟩
  | .ok _args => ⟨EX_OK, greeting ++ "\n", ""⟩

/-- One full run of the program, returning also the filesystem state
it leaves behind.  The code performs no filesystem mutation: it opens
handles in `r+` mode but never writes, creates or deletes anything,
and the handles are released at process exit, so the post-run
filesystem is the pre-run filesystem. -/
def runOnce (fs : FS) (argv : List String) : ProcResult × FS :=
  (main fs argv, fs)

/-- Number of newline characters in a string (to state "exactly one
line"). -/
def countNewlines (s : String) : Nat :=
  (s.toList.filter (fun c => c == '\n')).length

/-- Whether the first character list is an initial segment of the
second. -/
def leadsWith : List Char → List Char → Bool
  | [], _ => true
  | _ :: _, [] => false
  | a :: as, b :: bs => a == b && leadsWith as bs

/-- Whether `pat` occurs (contiguously) somewhere in `s`. -/
def subOccurs (pat : List Char) : List Char → Bool
  | [] => pat.isEmpty
  | c :: rest => leadsWith pat (c :: rest) || subOccurs pat rest

/-- Whether `pat` occurs as a substring of `s`. -/
def containsSub (s pat : String) : Bool :=
  subOccurs pat.toList s.toList

/-- The kinds of actions an argparse parser can carry: the automatic
help option, a plain store action (positional when its option-string
list is empty, a flag otherwise), or a subcommand dispatcher
(`add_subparsers`). -/
inductive ActionKind where
  | helpAction (optionStrings : List String)
  | storeAction (name : String) (nargs : String) (optionStrings : List String)
  | subcommandAction (name : String)
deriving DecidableEq, Repr

/-- The actions registered on the parser that `parse_args` builds:
`argparse.ArgumentParser()` (with its default `add_help=True`)
installs the `-h`/`--help` action, and the single `add_argument` call
appends the variadic positional `files`. -/
def qodexParserActions : List ActionKind :=
  [.helpAction ["-h", "--help"], .storeAction "files" "*" []]

/-- Whether an action is the automatically installed help option (as
opposed to one explicitly defined by the source). -/
def ActionKind.isAutoHelp : ActionKind → Bool
  | .helpAction _ => true
  | _ => false

/-- Whether an action is a subcommand dispatcher. -/
def ActionKind.isSubcommand : ActionKind → Bool
  | .subcommandAction _ => true
  | _ => false

/-- A statement of the module's top level: an import, a class or
function definition, the conventional `if __name__ == "__main__":
main()` guard, or a bare top-level call expression. -/
inductive TopItem where
  | importStmt (m : String)
  | defItem (name : String)
  | mainGuardCall
  | topLevelCall (f : String)
deriving DecidableEq, Repr

/-- Whether executing a top-level statement invokes `main` (both the
main-guard, which fires under `python -m`, and a bare `main()` call
would). -/
def TopItem.invokesMain : TopItem → Bool
  | .mainGuardCall => true
  | .topLevelCall f => f == "main"
  | _ => false

/-- The actual top level of `src/qodex/__main__.py`: four imports, the
`QodexNamespace` class definition and the two function definitions.
No main-guard and no top-level call appear. -/
def moduleTop : List TopItem :=
  [.importStmt "abc", .importStmt "argparse", .importStmt "os",
   .importStmt "typing",
   .defItem "QodexNamespace", .defItem "parse_args", .defItem "main"]

/-- Executing the module's top level (as `python -m qodex` does, with
`__name__` set to `"__main__"`): imports and definitions produce no
observable effect; a statement that invokes `main` contributes that
run's output and exit status. -/
def execModule (fs : FS) (argv : List String) : List TopItem → ProcResult
  | [] => ⟨0, "", ""⟩
  | i :: rest =>
      if i.invokesMain then
        let m := main fs argv
        let r := execModule fs argv rest
        ⟨m.exitCode, m.stdout ++ r.stdout, m.stderr ++ r.stderr⟩
      else execModule fs argv rest

/-- A filesystem on which no path opens (for concrete runs). -/
def fsNone : FS := ⟨fun _ => false⟩

/-- A filesystem on which every path opens (for concrete runs). -/
def fsAll : FS := ⟨fun _ => true⟩

/-! ## Helper lemmas -/

/-- `typing.cast` commutes with nothing because it does nothing: the
source's `parse_args` returns exactly what `parser.parse_args()`
produced. -/
theorem parse_args_eq_underlying (fs : FS) (argv : List String) :
    parse_args fs argv = parser_parse_args fs argv := by
  unfold parse_args
  cases parser_parse_args fs argv <;> rfl

/-- Whenever the parse returns a namespace, `main` prints the greeting
and returns `os.EX_OK`. -/
theorem main_eq_of_ok {fs : FS} {argv : List String} {ns : Namespace}
    (h : parse_args fs argv = ParseOutcome.ok ns) :
    main fs argv = ⟨EX_OK, greeting ++ "\n", ""⟩ := by
  unfold main
  rw [h]

theorem usageText_len_pos : 0 < usageText.length := by decide

/-- The open-failure diagnostic is never the empty string (it begins
with the usage line). -/
theorem fileErrMsg_ne_empty (p : String) : fileErrMsg p ≠ "" := by
  intro h
  have hlen : usageText.length ≤ (fileErrMsg p).length := by
    rw [fileErrMsg]
    simp [String.length_append]
    omega
  rw [h] at hlen
  have h0 : ("" : String).length = 0 := rfl
  rw [h0] at hlen
  have hp := usageText_len_pos
  omega

/-- The unrecognized-arguments diagnostic is never the empty string. -/
theorem unrecognizedMsg_ne_empty (ts : List String) :
    unrecognizedMsg ts ≠ "" := by
  intro h
  have hlen : usageText.length ≤ (unrecognizedMsg ts).length := by
    rw [unrecognizedMsg]
    simp [String.length_append]
    omega
  rw [h] at hlen
  have h0 : ("" : String).length = 0 := rfl
  rw [h0] at hlen
  have hp := usageText_len_pos
  omega

/-- When every token is a plain path (no option string, not the `--`
separator) and every one opens, consumption succeeds and appends one
handle per token, in order. -/
theorem parseTokens_plain (fs : FS) (ts : List String) :
    ∀ files : List TextHandle,
      (∀ t ∈ ts, isOptionTok t = false ∧ t ≠ "--" ∧ fs.openable t = true) →
      parseTokens fs ts false false files [] =
        ParseOutcome.ok ⟨files ++ ts.map fun p => ⟨p⟩⟩ := by
  induction ts with
  | nil =>
    intro files _
    simp [parseTokens]
  | cons t rest ih =>
    intro files h
    obtain ⟨hnopt, hnsep, hopen⟩ := h t (List.mem_cons_self t rest)
    have hbeq : (t == "--") = false := beq_eq_false_iff_ne.mpr hnsep
    have hrec := ih (files ++ [⟨t⟩]) fun u hu => h u (List.mem_cons_of_mem t hu)
    simp [parseTokens, hbeq, hnopt, openFile, hopen, hrec]

/-- When every token is a plain path and at least one of them does not
open, consumption aborts with exit code 2 and an open-failure
diagnostic for some unopenable path. -/
theorem parseTokens_plain_fail (fs : FS) (ts : List String) :
    ∀ files : List TextHandle,
      (∀ t ∈ ts, isOptionTok t = false ∧ t ≠ "--") →
      (∃ t ∈ ts, fs.openable t = false) →
      ∃ p, fs.openable p = false ∧
        parseTokens fs ts false false files [] =
          ParseOutcome.exit 2 "" (fileErrMsg p) := by
  induction ts with
  | nil =>
    intro files _ hex
    simp at hex
  | cons t rest ih =>
    intro files hall hex
    obtain ⟨hnopt, hnsep⟩ := hall t (List.mem_cons_self t rest)
    have hbeq : (t == "--") = false := beq_eq_false_iff_ne.mpr hnsep
    by_cases hopen : fs.openable t = true
    · have hex' : ∃ u ∈ rest, fs.openable u = false := by
        rcases hex with ⟨u, hu, hof⟩
        rcases List.mem_cons.mp hu with rfl | hu'
        · rw [hof] at hopen
          cases hopen
        · exact ⟨u, hu', hof⟩
      obtain ⟨p, hp, hres⟩ :=
        ih (files ++ [⟨t⟩]) (fun u hu => hall u (List.mem_cons_of_mem t hu)) hex'
      refine ⟨p, hp, ?_⟩
      simp [parseTokens, hbeq, hnopt, openFile, hopen, hres]
    · have hopen' : fs.openable t = false := by
        cases hO : fs.openable t
        · rfl
        · exact absurd hO hopen
      refine ⟨t, hopen', ?_⟩
      simp [parseTokens, hbeq, hnopt, openFile, hopen']

/-- Every process termination performed by the parser is either the
help exit (status 0, help text on stdout, silent stderr) or an error
exit (status 2, silent stdout, a diagnostic on stderr). -/
theorem parseTokens_exit_codes (fs : FS) (ts : List String) :
    ∀ (afterDD chunkDone : Bool) (files : List TextHandle)
      (extras : List String) (c : Nat) (o e : String),
      parseTokens fs ts afterDD chunkDone files extras =
        ParseOutcome.exit c o e →
      (c = 0 ∧ o = helpText ∧ e = "") ∨ (c = 2 ∧ o = "" ∧ e ≠ "") := by
  induction ts with
  | nil =>
    intro afterDD chunkDone files extras c o e h
    rw [parseTokens] at h
    split at h
    · cases h
    · injection h with hc ho he
      exact Or.inr ⟨hc.symm, ho.symm, he ▸ unrecognizedMsg_ne_empty extras⟩
  | cons t rest ih =>
    intro afterDD chunkDone files extras c o e h
    rw [parseTokens] at h
    split at h
    · split at h
      · exact ih _ _ _ _ _ _ _ h
      · exact ih _ _ _ _ _ _ _ h
    · split at h
      · split at h
        · injection h with hc ho he
          exact Or.inl ⟨hc.symm, ho.symm, he.symm⟩
        · exact ih _ _ _ _ _ _ _ h
      · split at h
        · exact ih _ _ _ _ _ _ _ h
        · split at h
          · exact ih _ _ _ _ _ _ _ h
          · injection h with hc ho he
            exact Or.inr ⟨hc.symm, ho.symm, he ▸ fileErrMsg_ne_empty t⟩

/-! ## Claim theorems -/

/-- C1: whenever argument parsing succeeds, `main` prints exactly one
line to stdout, the literal `Hello Qodex!` followed by a newline,
writes nothing to stderr, and returns the success status 0. -/
theorem main_ok_greeting (fs : FS) (argv : List String) (ns : Namespace)
    (h : parse_args fs argv = ParseOutcome.ok ns) :
    main fs argv = ⟨0, "Hello Qodex!\n", ""⟩ ∧
    countNewlines (main fs argv).stdout = 1 := by
  have hm := main_eq_of_ok h
  rw [hm]
  exact ⟨by decide, by decide⟩

theorem main_ok_greeting_witness :
    parse_args fsNone [] = ParseOutcome.ok ⟨[]⟩ ∧
    (main fsNone [] = ⟨0, "Hello Qodex!\n", ""⟩ ∧
     countNewlines (main fsNone []).stdout = 1) :=
  ⟨by decide, main_ok_greeting fsNone [] ⟨[]⟩ (by decide)⟩

/-- C2: with any number `N ≥ 0` of valid, openable path arguments
(plain tokens, not option strings, not the `--` separator), parsing
succeeds and the resulting `files` holds exactly `N` handles, one per
path, in command-line order; `N = 0` gives the empty sequence. -/
theorem parse_args_plain_paths (fs : FS) (argv : List String)
    (h : ∀ t ∈ argv, isOptionTok t = false ∧ t ≠ "--" ∧ fs.openable t = true) :
    parse_args fs argv = ParseOutcome.ok ⟨argv.map fun p => ⟨p⟩⟩ ∧
    (argv.map fun p => (⟨p⟩ : TextHandle)).length = argv.length ∧
    (argv.map fun p => (⟨p⟩ : TextHandle)).map TextHandle.path = argv := by
  have hp := parseTokens_plain fs argv [] h
  refine ⟨?_, by simp, ?_⟩
  · rw [parse_args_eq_underlying, parser_parse_args, hp]
    simp
  · rw [List.map_map]
    exact List.map_id argv

theorem parse_args_plain_paths_witness :
    (∀ t ∈ ["a.txt", "b.txt"],
        isOptionTok t = false ∧ t ≠ "--" ∧ fsAll.openable t = true) ∧
    (parse_args fsAll ["a.txt", "b.txt"] =
        ParseOutcome.ok ⟨["a.txt", "b.txt"].map fun p => ⟨p⟩⟩ ∧
     (["a.txt", "b.txt"].map fun p => (⟨p⟩ : TextHandle)).length =
        (["a.txt", "b.txt"] : List String).length ∧
     (["a.txt", "b.txt"].map fun p => (⟨p⟩ : TextHandle)).map
        TextHandle.path = ["a.txt", "b.txt"]) :=
  ⟨by decide, parse_args_plain_paths fsAll ["a.txt", "b.txt"] (by decide)⟩

/-- C3: when the command line consists of path tokens and at least one
of them cannot be opened in read-and-update mode, the parser fails
fast: the process exits with a non-zero status (never reaching the
caller), a diagnostic goes to stderr, and stdout stays empty, so it
never contains `Hello Qodex!`. -/
theorem main_unopenable_fails (fs : FS) (argv : List String)
    (hall : ∀ t ∈ argv, isOptionTok t = false ∧ t ≠ "--")
    (hex : ∃ t ∈ argv, fs.openable t = false) :
    (main fs argv).exitCode ≠ 0 ∧
    (main fs argv).stderr ≠ "" ∧
    (main fs argv).stdout = "" ∧
    containsSub (main fs argv).stdout greeting = false := by
  obtain ⟨p, _, hres⟩ := parseTokens_plain_fail fs argv [] hall hex
  have hpa : parse_args fs argv = ParseOutcome.exit 2 "" (fileErrMsg p) := by
    rw [parse_args_eq_underlying, parser_parse_args, hres]
  have hm : main fs argv = ⟨2, "", fileErrMsg p⟩ := by
    unfold main
    rw [hpa]
  rw [hm]
  refine ⟨?_, fileErrMsg_ne_empty p, rfl, ?_⟩
  · show (2 : Nat) ≠ 0
    decide
  · show containsSub "" greeting = false
    decide

theorem main_unopenable_fails_witness :
    (∀ t ∈ ["missing.txt"], isOptionTok t = false ∧ t ≠ "--") ∧
    (∃ t ∈ ["missing.txt"], fsNone.openable t = false) ∧
    ((main fsNone ["missing.txt"]).exitCode ≠ 0 ∧
     (main fsNone ["missing.txt"]).stderr ≠ "" ∧
     (main fsNone ["missing.txt"]).stdout = "" ∧
     containsSub (main fsNone ["missing.txt"]).stdout greeting = false) :=
  ⟨by decide, ⟨"missing.txt", by decide⟩,
   main_unopenable_fails fsNone ["missing.txt"] (by decide)
     ⟨"missing.txt", by decide⟩⟩

/-- C4 counterexample: the parser accepts an argument form that is not
a positional file path.  On a filesystem where no path opens at all,
`-h` is still accepted (help exit, status 0, nothing on stderr); had
`-h` been handed to the positional `files` list, it would have failed
to open, as forcing it positional with `--` shows (error exit,
status 2). -/
theorem flags_cex :
    parse_args fsNone ["-h"] = ParseOutcome.exit 0 helpText "" ∧
    parse_args fsNone ["--", "-h"] =
      ParseOutcome.exit 2 "" (fileErrMsg "-h") :=
  ⟨by decide, by decide⟩

/-- C4 (amended): the source explicitly defines no flags, options or
subcommands: filtering out the automatically installed help action
leaves exactly the one variadic positional `files`, and no subcommand
dispatcher exists.  However, the parser does additionally accept the
auto-generated `-h`/`--help` option, so the positional list is not the
only accepted argument form. -/
theorem explicit_surface_positional_only (fs : FS) :
    qodexParserActions.filter (fun a => !a.isAutoHelp) =
      [ActionKind.storeAction "files" "*" []] ∧
    qodexParserActions.all (fun a => !a.isSubcommand) = true ∧
    parse_args fs ["-h"] = ParseOutcome.exit 0 helpText "" := by
  refine ⟨by decide, by decide, ?_⟩
  rfl

/-- C5: `main`'s observable behavior after a successful parse is
independent of the parsed `files` value: any two runs whose parses
succeed (whatever the number and contents of the opened handles)
produce identical exit status, stdout and stderr. -/
theorem main_independent_of_files (fs₁ fs₂ : FS)
    (argv₁ argv₂ : List String) (ns₁ ns₂ : Namespace)
    (h₁ : parse_args fs₁ argv₁ = ParseOutcome.ok ns₁)
    (h₂ : parse_args fs₂ argv₂ = ParseOutcome.ok ns₂) :
    main fs₁ argv₁ = main fs₂ argv₂ := by
  rw [main_eq_of_ok h₁, main_eq_of_ok h₂]

theorem main_independent_of_files_witness :
    parse_args fsNone [] = ParseOutcome.ok ⟨[]⟩ ∧
    parse_args fsAll ["a.txt"] = ParseOutcome.ok ⟨[⟨"a.txt"⟩]⟩ ∧
    main fsNone [] = main fsAll ["a.txt"] :=
  ⟨by decide, by decide,
   main_independent_of_files fsNone fsAll [] ["a.txt"] ⟨[]⟩ ⟨[⟨"a.txt"⟩]⟩
     (by decide) (by decide)⟩

/-- C6: the program is deterministic and persists no state: a run
leaves the filesystem exactly as it found it, and a second run with
the same arguments on that post-run filesystem produces the same
observable result (exit status, stdout, stderr) as the first. -/
theorem program_deterministic (fs : FS) (argv : List String) :
    (runOnce fs argv).2 = fs ∧
    (runOnce (runOnce fs argv).2 argv).1 = (runOnce fs argv).1 :=
  ⟨rfl, rfl⟩

/-- C7: the typed arguments view changes nothing at runtime:
`parse_args` returns exactly the object the underlying generic parser
produced, and `typing.cast` to the `QodexNamespace` view is the
identity on it. -/
theorem typed_view_identity (fs : FS) (argv : List String) :
    parse_args fs argv = parser_parse_args fs argv ∧
    ∀ ns : Namespace, typing_cast QodexNamespaceView ns = ns :=
  ⟨parse_args_eq_underlying fs argv, fun _ => rfl⟩

/-- C8: every process termination the parser performs on a parsing
failure carries exit status exactly 2 (argparse's fixed error code):
any parser exit with non-zero status has status 2, empty stdout and a
non-empty stderr diagnostic. -/
theorem parse_failure_exit_two (fs : FS) (argv : List String)
    (c : Nat) (o e : String)
    (h : parse_args fs argv = ParseOutcome.exit c o e) (hc : c ≠ 0) :
    c = 2 ∧ o = "" ∧ e ≠ "" := by
  rw [parse_args_eq_underlying, parser_parse_args] at h
  rcases parseTokens_exit_codes fs argv false false [] [] c o e h with
    ⟨h0, -, -⟩ | hfail
  · exact absurd h0 hc
  · exact hfail

theorem parse_failure_exit_two_witness :
    parse_args fsNone ["missing.txt"] =
      ParseOutcome.exit 2 "" (fileErrMsg "missing.txt") ∧
    (2 : Nat) ≠ 0 ∧
    ((2 : Nat) = 2 ∧ ("" : String) = "" ∧ fileErrMsg "missing.txt" ≠ "") :=
  ⟨by decide, by decide,
   parse_failure_exit_two fsNone ["missing.txt"] 2 "" (fileErrMsg "missing.txt")
     (by decide) (by decide)⟩

/-- C9: `-h` and `--help` are accepted on any filesystem: the parser
prints the usage/help message to stdout and terminates the process
with status 0 before `main`'s greeting is reached, so a status-0 run
need not emit `Hello Qodex!` (the help text does not contain it). -/
theorem help_flag_accepted (fs : FS) :
    parse_args fs ["-h"] = ParseOutcome.exit 0 helpText "" ∧
    parse_args fs ["--help"] = ParseOutcome.exit 0 helpText "" ∧
    main fs ["-h"] = ⟨0, helpText, ""⟩ ∧
    main fs ["--help"] = ⟨0, helpText, ""⟩ ∧
    containsSub helpText greeting = false :=
  ⟨rfl, rfl, rfl, rfl, by decide⟩

/-- C10: the module's top level consists only of imports and
definitions — no `if __name__ == "__main__"` guard and no top-level
call — so executing it (as `python -m qodex` does) invokes `main`
nowhere and performs no parsing, printing or file opening. -/
theorem module_import_no_effects (fs : FS) (argv : List String) :
    moduleTop.all (fun i => ! i.invokesMain) = true ∧
    (∀ i ∈ moduleTop,
        (∃ m, i = TopItem.importStmt m) ∨ (∃ n, i = TopItem.defItem n)) ∧
    execModule fs argv moduleTop = ⟨0, "", ""⟩ := by
  refine ⟨by decide, ?_, rfl⟩
  intro i hi
  simp [moduleTop] at hi
  rcases hi with rfl | rfl | rfl | rfl | rfl | rfl | rfl <;>
    first
      | exact Or.inl ⟨_, rfl⟩
      | exact Or.inr ⟨_, rfl⟩

end Qodex
